import Mathlib

/-!
Shallow embedding of the ptt-loan-notifier pipeline: the Item Store and
Delivery Ledger (database/models.py, database/crud.py), the tiered fanout
scheduler (scheduler/jobs.py), the LINE transport's bundling behaviour
(notification/line_bot.py), the intake keyword filter (crawler/parser.py),
and the personalized-mail path (auto_mail/mail_tracker.py,
auto_mail/auto_mail_service.py).

Times are modelled as minutes on a single Nat timeline; a calendar date is
`t / 1440`.  SQLite's CURRENT_TIMESTAMP stores UTC, and Asia/Taipei is
UTC+8, so the Taipei date of an instant t is `(t + 480) / 1440`.
External collaborators (the LINE push API, the PTT mailer, the content
generator) are passed in as oracle functions returning their outcome.
-/

namespace PttLoan

/-! ### Data model (database/models.py) -/

inductive UserTier
  | PREMIUM
  | STANDARD
deriving DecidableEq, Repr

/-- users table: id, line_user_id, tier, is_active. -/
structure User where
  id : Nat
  line_user_id : String
  tier : UserTier
  is_active : Bool
deriving DecidableEq, Repr

/-- articles table: surrogate id, unique ptt article_id, payload fields,
created_at (capture time). -/
structure Article where
  id : Nat
  article_id : String
  title : String
  author : String
  content : String
  url : String
  created_at : Nat
deriving DecidableEq, Repr

/-- notifications table: surrogate id, user_id FK, article_id FK,
nullable sent_at (none = pending).  The table declares no uniqueness
constraint on (user_id, article_id). -/
structure Notification where
  id : Nat
  user_id : Nat
  article_id : Nat
  sent_at : Option Nat
deriving DecidableEq, Repr

/-- The relational store: rows plus autoincrement counters. -/
structure DB where
  articles : List Article
  notifications : List Notification
  nextArticleId : Nat
  nextNotificationId : Nat
deriving DecidableEq, Repr

def emptyDB : DB := ⟨[], [], 0, 0⟩

/-- A candidate item as produced by the crawler (a dict with article_id,
title, author, content, url). -/
structure ArticleData where
  article_id : String
  title : String
  author : String
  content : String
  url : String
deriving DecidableEq, Repr

/-! ### CRUD layer (database/crud.py) -/

def get_article_by_ptt_id (db : DB) (article_id : String) : Option Article :=
  db.articles.find? (fun a => a.article_id == article_id)

def create_article (db : DB) (d : ArticleData) (now : Nat) : Article × DB :=
  let a : Article :=
    ⟨db.nextArticleId, d.article_id, d.title, d.author, d.content, d.url, now⟩
  (a, { db with articles := db.articles ++ [a],
                nextArticleId := db.nextArticleId + 1 })

def get_all_active_users (users : List User) : List User :=
  users.filter (fun u => u.is_active)

def get_active_users_by_tier (users : List User) (tier : UserTier) : List User :=
  users.filter (fun u => u.tier == tier && u.is_active)

/-- crud.create_notification: unconditionally INSERTs a pending row and
returns it; there is no duplicate check. -/
def create_notification (db : DB) (user_id article_id : Nat) :
    Notification × DB :=
  let n : Notification := ⟨db.nextNotificationId, user_id, article_id, none⟩
  (n, { db with notifications := db.notifications ++ [n],
                nextNotificationId := db.nextNotificationId + 1 })

def get_pending_notifications_for_user (db : DB) (user_id : Nat) :
    List Notification :=
  db.notifications.filter (fun n => n.user_id == user_id && n.sent_at == none)

/-- crud.mark_notification_sent: if the row exists, set sent_at to the
current time (datetime.utcnow()), unconditionally. -/
def mark_notification_sent (db : DB) (notification_id : Nat) (now : Nat) : DB :=
  { db with notifications := db.notifications.map (fun n =>
      if n.id = notification_id then { n with sent_at := some now } else n) }

/-- crud.mark_notifications_sent: UPDATE ... WHERE id IN ids. -/
def mark_notifications_sent (db : DB) (ids : List Nat) (now : Nat) : DB :=
  { db with notifications := db.notifications.map (fun n =>
      if n.id ∈ ids then { n with sent_at := some now } else n) }

def has_notification_for_article (db : DB) (user_id article_id : Nat) : Bool :=
  db.notifications.any (fun n =>
    n.user_id == user_id && n.article_id == article_id)

def RETENTION_DAYS : Nat := 180

def minutesPerDay : Nat := 1440

/-- crud.delete_old_articles: collect articles older than the cutoff,
delete their notifications first, then the articles, returning the count
of articles deleted. -/
def delete_old_articles (db : DB) (now : Nat) : Nat × DB :=
  let cutoff := now - RETENTION_DAYS * minutesPerDay
  let old := db.articles.filter (fun a => a.created_at < cutoff)
  let ids := old.map (fun a => a.id)
  if ids.isEmpty then (0, db)
  else
    let count := (db.articles.filter (fun a => ids.contains a.id)).length
    (count,
     { db with
       notifications :=
         db.notifications.filter (fun n => !(ids.contains n.article_id)),
       articles := db.articles.filter (fun a => !(ids.contains a.id)) })

/-! ### Scheduler (scheduler/jobs.py) -/

def SCHEDULE_START_HOUR : Nat := 7
def SCHEDULE_END_HOUR : Nat := 20

def is_within_schedule_hours (hour : Nat) : Bool :=
  SCHEDULE_START_HOUR ≤ hour && hour < SCHEDULE_END_HOUR

structure CrawlResult where
  db : DB
  fetched : Bool
deriving DecidableEq, Repr

/-- Premium branch of crawl_and_notify: push first; only when the push
succeeds, create a notification row and immediately mark it sent. -/
def notify_premium_users (premium : List User) (push : String → String → Bool)
    (natKey : String) (dbArticleId : Nat) (now : Nat) (db : DB) : DB :=
  premium.foldl (fun d u =>
    if push u.line_user_id natKey then
      let p := create_notification d u.id dbArticleId
      mark_notification_sent p.2 p.1.id now
    else d) db

/-- Standard branch of crawl_and_notify: create a pending notification
unless one already exists for the (user, article) pair. -/
def queue_standard_users (standard : List User) (dbArticleId : Nat) (db : DB) :
    DB :=
  standard.foldl (fun d u =>
    if has_notification_for_article d u.id dbArticleId then d
    else (create_notification d u.id dbArticleId).2) db

/-- Body of crawl_and_notify's per-candidate loop: skip falsy article_id,
skip candidates already in the store, otherwise insert and fan out. -/
def process_candidate (premium standard : List User)
    (push : String → String → Bool) (now : Nat) (db : DB) (cand : ArticleData) :
    DB :=
  if cand.article_id = "" then db
  else
    match get_article_by_ptt_id db cand.article_id with
    | some _ => db
    | none =>
      let p := create_article db cand now
      let db2 := notify_premium_users premium push cand.article_id p.1.id now p.2
      queue_standard_users standard p.1.id db2

/-- scheduler.jobs.crawl_and_notify.  `hour` is the current hour in the
configured timezone; `candidates` is what crawl_new_articles returned;
`push` is the LINE push oracle (line_user_id, natural key ↦ success). -/
def crawl_and_notify (hour : Nat) (candidates : List ArticleData)
    (users : List User) (push : String → String → Bool) (db : DB) (now : Nat) :
    CrawlResult :=
  if ¬ is_within_schedule_hours hour then ⟨db, false⟩
  else
    let all_users := get_all_active_users users
    let premium := all_users.filter (fun u => u.tier == UserTier.PREMIUM)
    let standard := all_users.filter (fun u => u.tier == UserTier.STANDARD)
    ⟨candidates.foldl (process_candidate premium standard push now) db, true⟩

/-! ### Hourly batched dispatch (scheduler/jobs.py, notification/line_bot.py) -/

/-- create_batch_flex_message caps the carousel at articles[:10]. -/
def bundled_ids (ids : List Nat) : List Nat := ids.take 10

structure HourlyResult where
  db : DB
  calls : List (String × List Nat)
deriving DecidableEq, Repr

/-- scheduler.jobs.send_hourly_notifications.  `calls` records each
outbound transport call as (line_user_id, the notification ids whose
articles were handed to push_batch_notification). -/
def send_hourly_notifications (users : List User) (batchOk : String → Bool)
    (db : DB) (now : Nat) : HourlyResult :=
  let standard := get_active_users_by_tier users UserTier.STANDARD
  standard.foldl (fun r u =>
    let pending := get_pending_notifications_for_user r.db u.id
    if pending.isEmpty then r
    else
      let notification_ids := pending.map (fun n => n.id)
      let calls := r.calls ++ [(u.line_user_id, notification_ids)]
      if batchOk u.line_user_id then
        ⟨mark_notifications_sent r.db notification_ids now, calls⟩
      else ⟨r.db, calls⟩) ⟨db, []⟩

/-! ### Intake keyword filter (crawler/parser.py) -/

/-- Python str.lower(), character by character. -/
def py_lower (s : String) : List Char := s.data.map Char.toLower

/-- Python's substring containment `needle in hay` on lists of characters. -/
def contains_sub (needle hay : List Char) : Bool :=
  if needle.isPrefixOf hay then true
  else
    match hay with
    | [] => false
    | _ :: t => contains_sub needle t

/-- parser.filter_by_keywords: append an article to the result as soon as
one keyword occurs in its title (case-sensitive, title only). -/
def filter_by_keywords (articles : List ArticleData) (keywords : List String) :
    List ArticleData :=
  articles.foldl (fun filtered article =>
    match keywords.find? (fun k => contains_sub k.toList article.title.toList) with
    | some _ => filtered ++ [article]
    | none => filtered) []

/-! ### Personalized-mail tracker (auto_mail/mail_tracker.py) -/

/-- sent_mails row.  sent_at defaults to SQLite CURRENT_TIMESTAMP, an
instant recorded in UTC. -/
structure SentMail where
  ptt_id : String
  article_id : String
  sent_at : Nat
  success : Bool
deriving DecidableEq, Repr

/-- The calendar date of a UTC instant, as SQLite's DATE(sent_at) sees it. -/
def utcDateOf (t : Nat) : Nat := t / minutesPerDay

def taipeiUtcOffsetMinutes : Nat := 480

/-- The Asia/Taipei calendar date of a UTC instant. -/
def taipeiDateOf (t : Nat) : Nat := (t + taipeiUtcOffsetMinutes) / minutesPerDay

def DAILY_LIMIT : Nat := 30

/-- MailTracker.record_sent: unconditionally INSERT a new row. -/
def record_sent (ledger : List SentMail) (ptt_id article_id : String)
    (success : Bool) (now : Nat) : List SentMail :=
  ledger ++ [⟨ptt_id, article_id, now, success⟩]

/-- MailTracker.has_sent_to: a successful row for this ptt_id exists. -/
def has_sent_to (ledger : List SentMail) (ptt_id : String) : Bool :=
  ledger.any (fun r => r.ptt_id == ptt_id && r.success)

/-- MailTracker.has_processed_article: any row for this article exists. -/
def has_processed_article (ledger : List SentMail) (article_id : String) : Bool :=
  ledger.any (fun r => r.article_id == article_id)

/-- MailTracker.get_today_count: rows with success = 1 whose DATE(sent_at)
(a UTC date) equals date.today() (the process-local current date,
`localToday`). -/
def get_today_count (ledger : List SentMail) (localToday : Nat) : Nat :=
  (ledger.filter (fun r => utcDateOf r.sent_at == localToday && r.success)).length

/-- MailTracker.can_send_today, with the daily limit a parameter so the
spec's dailyLimit = 1 scenario is expressible (the config default is 30). -/
def can_send_today (limit : Nat) (ledger : List SentMail) (localToday : Nat) :
    Bool :=
  get_today_count ledger localToday < limit

/-! ### Personalized-mail service (auto_mail/auto_mail_service.py) -/

/-- A candidate article dict on the auto-mail path. -/
structure MailArticle where
  article_id : String
  title : String
  author : String
  content : String
deriving DecidableEq, Repr

/-- AutoMailService.check_article_keywords: lowercase "title content" and
look for any lowercased keyword inside it. -/
def check_article_keywords (keywords : List String) (article : MailArticle) :
    Bool :=
  let text := py_lower (article.title ++ " " ++ article.content)
  keywords.any (fun keyword => contains_sub (py_lower keyword) text)

structure MailData where
  ptt_id : String
  article_id : String
deriving DecidableEq, Repr

/-- Ledger plus the queue of delayed sends whose threads have not fired
yet (the 3–5 minute jittered _schedule_mail threads). -/
structure MailState where
  ledger : List SentMail
  delayed : List MailData
deriving DecidableEq, Repr

/-- AutoMailService._send_mail: login, send, record the outcome either
way (a failed login is recorded as a failure too). -/
def send_mail (loginOk : Bool) (sendOk : String → Bool) (now : Nat)
    (ledger : List SentMail) (m : MailData) : Bool × List SentMail :=
  if ¬ loginOk then
    (false, record_sent ledger m.ptt_id m.article_id false now)
  else
    let success := sendOk m.ptt_id
    (success, record_sent ledger m.ptt_id m.article_id success now)

/-- AutoMailService.process_article.  `gen` is the content-generator
oracle; `immediate = false` routes through _schedule_mail, which only
appends to the delayed queue — the ledger is written when the thread
fires, not here. -/
def process_article (limit : Nat)
    (gen : MailArticle → Option (String × String)) (loginOk : Bool)
    (sendOk : String → Bool) (localToday now : Nat) (st : MailState)
    (article : MailArticle) (immediate : Bool) : Bool × MailState :=
  if article.article_id = "" ∨ article.author = "" ∨ article.title = "" then
    (false, st)
  else if has_processed_article st.ledger article.article_id then (false, st)
  else if has_sent_to st.ledger article.author then (false, st)
  else if ¬ can_send_today limit st.ledger localToday then (false, st)
  else
    match gen article with
    | none => (false, st)
    | some mail =>
      if mail.1 = "" ∨ mail.2 = "" then (false, st)
      else
        let m : MailData := ⟨article.author, article.article_id⟩
        if immediate then
          let p := send_mail loginOk sendOk now st.ledger m
          (p.1, { st with ledger := p.2 })
        else
          (true, { st with delayed := st.delayed ++ [m] })

structure BatchStats where
  processed : Nat
  skipped : Nat
  failed : Nat
deriving DecidableEq, Repr

/-- AutoMailService.process_articles_batch: skip non-matching articles,
break out of the loop as soon as the quota check fails, otherwise process
and count. -/
def process_articles_batch (limit : Nat)
    (keywords : List String) (gen : MailArticle → Option (String × String))
    (loginOk : Bool) (sendOk : String → Bool) (localToday now : Nat)
    (immediate : Bool) :
    List MailArticle → MailState → BatchStats → BatchStats × MailState
  | [], st, stats => (stats, st)
  | article :: rest, st, stats =>
    if ¬ check_article_keywords keywords article then
      process_articles_batch limit keywords gen loginOk sendOk localToday now
        immediate rest st { stats with skipped := stats.skipped + 1 }
    else if ¬ can_send_today limit st.ledger localToday then (stats, st)
    else
      let p := process_article limit gen loginOk sendOk localToday now st
        article immediate
      if p.1 then
        process_articles_batch limit keywords gen loginOk sendOk localToday now
          immediate rest p.2 { stats with processed := stats.processed + 1 }
      else
        process_articles_batch limit keywords gen loginOk sendOk localToday now
          immediate rest p.2 { stats with failed := stats.failed + 1 }

/-! ### Spec-side definitions, for comparison with the code -/

/-- Modelled from the spec: "count of successful sends whose timestamp
falls on the current date in the configured timezone" (Asia/Taipei) —
the quota count the spec describes, to be compared with get_today_count. -/
def spec_today_count (ledger : List SentMail) (taipeiToday : Nat) : Nat :=
  (ledger.filter (fun r => taipeiDateOf r.sent_at == taipeiToday && r.success)).length

/-- Modelled from the spec: "a case-insensitive keyword match against
title and body" — a candidate is retained iff some keyword occurs,
case-insensitively, in its title or in its body. -/
def spec_keyword_match (keywords : List String) (title content : String) :
    Bool :=
  keywords.any (fun k =>
    contains_sub (py_lower k) (py_lower title) ||
    contains_sub (py_lower k) (py_lower content))

/-- Referential integrity of the store: every notification references an
existing article row. -/
def integrity (db : DB) : Prop :=
  ∀ n ∈ db.notifications, ∃ a ∈ db.articles, a.id = n.article_id

/-- Number of article rows carrying a given natural key. -/
def countArticles (db : DB) (natKey : String) : Nat :=
  (db.articles.filter (fun a => a.article_id == natKey)).length

/-- Number of notification rows for a (recipient, item) pair. -/
def countPair (db : DB) (user_id article_id : Nat) : Nat :=
  (db.notifications.filter (fun n =>
    n.user_id == user_id && n.article_id == article_id)).length

/-! ### Helper lemmas -/

theorem length_filter_split (p : α → Bool) (l : List α) :
    (l.filter p).length + (l.filter (fun a => !(p a))).length = l.length := by
  induction l with
  | nil => rfl
  | cons a t ih => by_cases h : p a <;> simp [h, List.filter] <;> omega

theorem find?_append_of_none {p : α → Bool} {l l' : List α}
    (h : l.find? p = none) : (l ++ l').find? p = l'.find? p := by
  rw [List.find?_append, h, Option.none_or]

theorem notify_premium_users_articles (premium : List User)
    (push : String → String → Bool) (natKey : String) (aid now : Nat) :
    ∀ db, (notify_premium_users premium push natKey aid now db).articles
      = db.articles := by
  induction premium with
  | nil => intro db; rfl
  | cons u t ih =>
    intro db
    rw [notify_premium_users, List.foldl_cons, ← notify_premium_users]
    rw [ih]
    by_cases h : push u.line_user_id natKey <;>
      simp [h, mark_notification_sent, create_notification]

theorem queue_standard_users_articles (standard : List User) (aid : Nat) :
    ∀ db, (queue_standard_users standard aid db).articles = db.articles := by
  induction standard with
  | nil => intro db; rfl
  | cons u t ih =>
    intro db
    rw [queue_standard_users, List.foldl_cons, ← queue_standard_users]
    rw [ih]
    by_cases h : has_notification_for_article db u.id aid <;>
      simp [h, create_notification]

theorem countArticles_eq_zero_iff (db : DB) (natKey : String) :
    countArticles db natKey = 0 ↔ get_article_by_ptt_id db natKey = none := by
  simp [countArticles, get_article_by_ptt_id, List.length_eq_zero,
    List.filter_eq_nil_iff, List.find?_eq_none]

theorem process_candidate_of_existing (premium standard : List User)
    (push : String → String → Bool) (now : Nat) (db : DB) (cand : ArticleData)
    (h : (get_article_by_ptt_id db cand.article_id).isSome) :
    process_candidate premium standard push now db cand = db := by
  obtain ⟨x, hx⟩ := Option.isSome_iff_exists.mp h
  by_cases he : cand.article_id = "" <;> simp [process_candidate, he, hx]

theorem process_candidate_articles_of_new (premium standard : List User)
    (push : String → String → Bool) (now : Nat) (db : DB) (cand : ArticleData)
    (he : cand.article_id ≠ "")
    (h : get_article_by_ptt_id db cand.article_id = none) :
    (process_candidate premium standard push now db cand).articles
      = db.articles ++ [⟨db.nextArticleId, cand.article_id, cand.title,
          cand.author, cand.content, cand.url, now⟩] := by
  simp only [process_candidate, he, if_false, h]
  rw [queue_standard_users_articles, notify_premium_users_articles]
  rfl

/-! ### Claim theorems -/

/-- C10: whenever the current hour is outside
[SCHEDULE_START_HOUR, SCHEDULE_END_HOUR), crawl_and_notify returns
without fetching the feed and without mutating the store. -/
theorem C10_schedule_window_gate (hour : Nat) (candidates : List ArticleData)
    (users : List User) (push : String → String → Bool) (db : DB) (now : Nat)
    (h : ¬ (SCHEDULE_START_HOUR ≤ hour ∧ hour < SCHEDULE_END_HOUR)) :
    crawl_and_notify hour candidates users push db now = ⟨db, false⟩ := by
  have hb : is_within_schedule_hours hour = false := by
    simp only [is_within_schedule_hours, Bool.and_eq_false_iff,
      decide_eq_false_iff_not]
    omega
  simp [crawl_and_notify, hb]

theorem C10_schedule_window_gate_witness :
    ¬ (SCHEDULE_START_HOUR ≤ 3 ∧ 3 < SCHEDULE_END_HOUR) ∧
    crawl_and_notify 3 [] [] (fun _ _ => false) emptyDB 0 = ⟨emptyDB, false⟩ :=
  ⟨by decide, C10_schedule_window_gate 3 [] [] (fun _ _ => false) emptyDB 0
    (by decide)⟩

/-- C4 counterexample: create_notification called twice for the same
(recipient, item) pair silently inserts a second row — no AlreadyExists
failure ever occurs. -/
theorem C4_counterexample :
    (create_notification (create_notification emptyDB 1 2).2 1 2).2.notifications
      = [⟨0, 1, 2, none⟩, ⟨1, 1, 2, none⟩] ∧
    countPair (create_notification (create_notification emptyDB 1 2).2 1 2).2 1 2
      = 2 := by
  exact ⟨rfl, rfl⟩

/-- C4 amended: create_notification unconditionally inserts a new pending
row and returns it; every call increments the (recipient, item) pair count
by one, so deduplication is entirely the caller's responsibility. -/
theorem C4_amended (db : DB) (uid aid : Nat) :
    (create_notification db uid aid).2.notifications
      = db.notifications ++ [⟨db.nextNotificationId, uid, aid, none⟩] ∧
    (create_notification db uid aid).1.sent_at = none ∧
    countPair (create_notification db uid aid).2 uid aid
      = countPair db uid aid + 1 := by
  refine ⟨rfl, rfl, ?_⟩
  simp [countPair, create_notification, List.filter_append]

/-- C5 counterexample: marking the same record sent twice (same outcome)
is not a no-op — the second call silently overwrites sent_at with the
later timestamp, and no error is raised. -/
theorem C5_counterexample :
    (mark_notification_sent (⟨[], [⟨0, 1, 2, none⟩], 0, 1⟩ : DB) 0 5).notifications
      = [⟨0, 1, 2, some 5⟩] ∧
    (mark_notification_sent
        (mark_notification_sent (⟨[], [⟨0, 1, 2, none⟩], 0, 1⟩ : DB) 0 5)
        0 9).notifications
      = [⟨0, 1, 2, some 9⟩] := by
  exact ⟨rfl, rfl⟩

/-- C5 amended: mark_notification_sent unconditionally overwrites sent_at
with the current time on every call (two calls leave the later timestamp,
nothing is surfaced to the caller), and MailTracker.record_sent appends a
fresh ledger row on every call, so conflicting outcomes coexist silently. -/
theorem C5_amended (db : DB) (nid t1 t2 : Nat) (L : List SentMail)
    (pid1 aid1 pid2 aid2 : String) (s1 s2 : Bool) (w1 w2 : Nat) :
    (mark_notification_sent (mark_notification_sent db nid t1) nid t2).notifications
      = db.notifications.map (fun n =>
          if n.id = nid then { n with sent_at := some t2 } else n) ∧
    record_sent (record_sent L pid1 aid1 s1 w1) pid2 aid2 s2 w2
      = L ++ [⟨pid1, aid1, w1, s1⟩, ⟨pid2, aid2, w2, s2⟩] := by
  constructor
  · simp only [mark_notification_sent, List.map_map]
    refine List.map_congr_left (fun n _ => ?_)
    by_cases h : n.id = nid <;> simp [h]
  · simp [record_sent]

/-- C6 counterexample: with 30 successful sends at UTC minute 1000 (Taipei
date 1) and the local today also being Taipei date 1, the ledger has
exhausted the limit by the spec's Asia/Taipei reading, yet can_send_today
still returns true because DATE(sent_at) is the UTC date 0. -/
theorem C6_counterexample :
    taipeiDateOf 1000 = 1 ∧
    ¬ (spec_today_count (List.replicate 30 ⟨"p", "a", 1000, true⟩) 1
        < DAILY_LIMIT) ∧
    can_send_today DAILY_LIMIT (List.replicate 30 ⟨"p", "a", 1000, true⟩) 1
      = true := by
  refine ⟨by decide, by decide, by decide⟩

/-- C6 amended: can_send_today returns true iff the number of ledger rows
with the success flag set whose UTC-stored timestamp's calendar date
equals the process-local current date is below DAILY_LIMIT; only
successful sends are counted, but the date comparison pairs a UTC date
with the local today rather than converting to Asia/Taipei. -/
theorem C6_amended (ledger : List SentMail) (localToday : Nat) :
    can_send_today DAILY_LIMIT ledger localToday = true ↔
    (ledger.filter (fun r =>
        r.success && utcDateOf r.sent_at == localToday)).length < DAILY_LIMIT := by
  have hf : ∀ r : SentMail,
      (utcDateOf r.sent_at == localToday && r.success)
        = (r.success && utcDateOf r.sent_at == localToday) := by
    intro r; rw [Bool.and_comm]
  rw [can_send_today, get_today_count, List.filter_congr (fun r _ => hf r)]
  exact decide_eq_true_iff

/-- C2 counterexample: one active PREMIUM recipient, a fresh item, and a
transport that fails — the item is stored but no DeliveryRecord at all is
created for the (recipient, item) pair, pending or otherwise. -/
theorem C2_counterexample :
    (crawl_and_notify 8 [⟨"A1", "t", "au", "c", "u"⟩]
        [⟨0, "L", UserTier.PREMIUM, true⟩] (fun _ _ => false) emptyDB
        5).db.notifications = [] ∧
    ((crawl_and_notify 8 [⟨"A1", "t", "au", "c", "u"⟩]
        [⟨0, "L", UserTier.PREMIUM, true⟩] (fun _ _ => false) emptyDB
        5).db.articles.map (fun a => a.article_id)) = ["A1"] := by
  exact ⟨rfl, rfl⟩

/-- C2 amended: for a newly inserted item and an active PREMIUM recipient,
crawl_and_notify calls the transport first; only when the call succeeds
does it create a notification row, immediately marked sent — on transport
failure no DeliveryRecord is created at all. -/
theorem C2_amended (hour : Nat) (a : ArticleData) (u : User)
    (push : String → String → Bool) (now : Nat)
    (hw : is_within_schedule_hours hour = true)
    (ha : a.article_id ≠ "") (hu : u.is_active = true)
    (ht : u.tier = UserTier.PREMIUM) :
    (crawl_and_notify hour [a] [u] push emptyDB now).db.notifications
      = if push u.line_user_id a.article_id
        then [⟨0, u.id, 0, some now⟩] else [] := by
  by_cases hp : push u.line_user_id a.article_id <;>
    simp [crawl_and_notify, hw, get_all_active_users, hu, ht,
      process_candidate, ha, get_article_by_ptt_id, create_article,
      notify_premium_users, queue_standard_users, create_notification,
      mark_notification_sent, emptyDB, hp]

theorem C2_amended_witness :
    is_within_schedule_hours 8 = true ∧
    (crawl_and_notify 8 [⟨"A1", "t", "au", "c", "u"⟩]
        [⟨7, "L", UserTier.PREMIUM, true⟩] (fun _ _ => true) emptyDB
        5).db.notifications
      = if (fun _ _ => true : String → String → Bool) "L" "A1"
        then [⟨0, 7, 0, some 5⟩] else [] :=
  ⟨by decide, C2_amended 8 ⟨"A1", "t", "au", "c", "u"⟩
    ⟨7, "L", UserTier.PREMIUM, true⟩ (fun _ _ => true) 5 (by decide)
    (by decide) rfl rfl⟩

/-- C1: intake is idempotent — delivering the same candidate in two
separate in-window ticks leaves exactly one article row with its natural
key, and the second tick changes nothing: no new articles and no new
notifications for any recipient. -/
theorem C1_intake_idempotent (h1 h2 : Nat) (a : ArticleData)
    (u1 u2 : List User) (p1 p2 : String → String → Bool) (db0 : DB)
    (t1 t2 : Nat) (ha : a.article_id ≠ "")
    (hw1 : is_within_schedule_hours h1 = true)
    (hw2 : is_within_schedule_hours h2 = true)
    (h0 : countArticles db0 a.article_id = 0) :
    countArticles (crawl_and_notify h1 [a] u1 p1 db0 t1).db a.article_id = 1 ∧
    (crawl_and_notify h2 [a] u2 p2
        (crawl_and_notify h1 [a] u1 p1 db0 t1).db t2).db
      = (crawl_and_notify h1 [a] u1 p1 db0 t1).db := by
  have hnone : get_article_by_ptt_id db0 a.article_id = none :=
    (countArticles_eq_zero_iff db0 a.article_id).mp h0
  have e1 : (crawl_and_notify h1 [a] u1 p1 db0 t1).db
      = process_candidate
          ((get_all_active_users u1).filter (fun u => u.tier == UserTier.PREMIUM))
          ((get_all_active_users u1).filter (fun u => u.tier == UserTier.STANDARD))
          p1 t1 db0 a := by
    simp [crawl_and_notify, hw1]
  have harts1 : (crawl_and_notify h1 [a] u1 p1 db0 t1).db.articles
      = db0.articles ++ [⟨db0.nextArticleId, a.article_id, a.title, a.author,
          a.content, a.url, t1⟩] := by
    rw [e1]
    exact process_candidate_articles_of_new _ _ p1 t1 db0 a ha hnone
  have hfilter0 : db0.articles.filter (fun x => x.article_id == a.article_id)
      = [] := List.length_eq_zero.mp h0
  have hcount : countArticles (crawl_and_notify h1 [a] u1 p1 db0 t1).db
      a.article_id = 1 := by
    rw [countArticles, harts1, List.filter_append, hfilter0]
    simp
  have hsome : (get_article_by_ptt_id (crawl_and_notify h1 [a] u1 p1 db0 t1).db
      a.article_id).isSome := by
    rw [get_article_by_ptt_id] at hnone ⊢
    rw [harts1, find?_append_of_none hnone]
    simp [List.find?]
  set db1 := (crawl_and_notify h1 [a] u1 p1 db0 t1).db with hdb1
  refine ⟨hcount, ?_⟩
  rw [crawl_and_notify, if_neg (by simp [hw2])]
  exact process_candidate_of_existing _ _ _ _ _ _ hsome

theorem C1_intake_idempotent_witness :
    ((⟨"A1", "t", "au", "c", "u"⟩ : ArticleData).article_id ≠ "" ∧
      is_within_schedule_hours 8 = true ∧
      is_within_schedule_hours 9 = true ∧
      countArticles emptyDB "A1" = 0) ∧
    (countArticles (crawl_and_notify 8 [⟨"A1", "t", "au", "c", "u"⟩] []
        (fun _ _ => true) emptyDB 1).db "A1" = 1 ∧
    (crawl_and_notify 9 [⟨"A1", "t", "au", "c", "u"⟩] [] (fun _ _ => true)
        (crawl_and_notify 8 [⟨"A1", "t", "au", "c", "u"⟩] []
          (fun _ _ => true) emptyDB 1).db 2).db
      = (crawl_and_notify 8 [⟨"A1", "t", "au", "c", "u"⟩] []
          (fun _ _ => true) emptyDB 1).db) :=
  ⟨⟨by decide, by decide, by decide, by decide⟩,
    C1_intake_idempotent 8 9 ⟨"A1", "t", "au", "c", "u"⟩ [] []
      (fun _ _ => true) (fun _ _ => true) emptyDB 1 2 (by decide) (by decide)
      (by decide) (by decide)⟩

/-- C8 counterexample: keyword "K" occurs case-insensitively in the title
"k", so the spec's predicate retains the candidate, yet the intake filter
discards it — filter_by_keywords is case-sensitive (and title-only). -/
theorem C8_counterexample :
    spec_keyword_match ["K"] "k" "" = true ∧
    filter_by_keywords [⟨"A1", "k", "a", "c", "u"⟩] ["K"] = [] := by
  exact ⟨by decide, by decide⟩

/-- C8 amended: the crawl intake filter retains a candidate iff some
configured keyword occurs case-sensitively in its title (the body is not
consulted); separately, the personalized-mail path's keyword check
matches iff some keyword occurs case-insensitively in the candidate's
title and body concatenated with a space. -/
theorem C8_amended :
    (∀ (articles : List ArticleData) (keywords : List String),
      filter_by_keywords articles keywords
        = articles.filter (fun a =>
            keywords.any (fun k => contains_sub k.toList a.title.toList))) ∧
    (∀ (keywords : List String) (article : MailArticle),
      check_article_keywords keywords article = true ↔
      ∃ k ∈ keywords, contains_sub (py_lower k)
        (py_lower (article.title ++ " " ++ article.content)) = true) := by
  constructor
  · intro articles keywords
    have aux : ∀ (l : List ArticleData) (acc : List ArticleData),
        l.foldl (fun filtered article =>
          match keywords.find? (fun k =>
              contains_sub k.toList article.title.toList) with
          | some _ => filtered ++ [article]
          | none => filtered) acc
          = acc ++ l.filter (fun a =>
              keywords.any (fun k => contains_sub k.toList a.title.toList)) := by
      intro l
      induction l with
      | nil => intro acc; simp
      | cons x t ih =>
        intro acc
        rw [List.foldl_cons]
        cases hf : keywords.find? (fun k =>
            contains_sub k.toList x.title.toList) with
        | none =>
          have hany : keywords.any
              (fun k => contains_sub k.toList x.title.toList) = false := by
            simp only [Bool.eq_false_iff, ne_eq, List.any_eq_true, not_exists,
              not_and]
            intro k hk
            simpa using List.find?_eq_none.mp hf k hk
          simp only [hf, List.filter_cons, hany]
          exact ih acc
        | some k =>
          have hpk := List.find?_some hf
          have hmk := List.mem_of_find?_eq_some hf
          have hany : keywords.any
              (fun k => contains_sub k.toList x.title.toList) = true :=
            List.any_eq_true.mpr ⟨k, hmk, hpk⟩
          simp only [hf, List.filter_cons, hany, if_pos]
          rw [ih (acc ++ [x]), List.append_assoc]
          rfl
    simpa [filter_by_keywords] using aux articles []
  · intro keywords article
    simp [check_article_keywords, List.any_eq_true]

/-- C9: after delete_old_articles, no article older than the retention
cutoff remains, referential integrity of notifications is preserved (the
associated notifications were deleted with their articles), and the
returned count is exactly the number of articles deleted. -/
theorem C9_retention_purge (db : DB) (now : Nat) (hint : integrity db) :
    ((delete_old_articles db now).1
        + (delete_old_articles db now).2.articles.length
      = db.articles.length) ∧
    (∀ a ∈ (delete_old_articles db now).2.articles,
      ¬ a.created_at < now - RETENTION_DAYS * minutesPerDay) ∧
    integrity (delete_old_articles db now).2 := by
  simp only [delete_old_articles]
  by_cases hids : ((db.articles.filter
      (fun a => a.created_at < now - RETENTION_DAYS * minutesPerDay)).map
        (fun a => a.id)).isEmpty
  · have hold : db.articles.filter
        (fun a => a.created_at < now - RETENTION_DAYS * minutesPerDay) = [] := by
      have := List.isEmpty_iff.mp hids
      exact List.map_eq_nil_iff.mp this
    refine ⟨by simp [hids], ?_, ?_⟩
    · intro a hmem
      simp only [hids, if_true] at hmem ⊢
      have := List.filter_eq_nil_iff.mp hold a hmem
      simpa using this
    · simpa [hids] using hint
  · simp only [hids, if_false, Bool.false_eq_true]
    refine ⟨?_, ?_, ?_⟩
    · exact length_filter_split _ _
    · intro a hmem
      have hmem' := List.mem_filter.mp hmem
      intro hlt
      have haold : a ∈ db.articles.filter
          (fun x => x.created_at < now - RETENTION_DAYS * minutesPerDay) :=
        List.mem_filter.mpr ⟨hmem'.1, by simpa using hlt⟩
      have hid : a.id ∈ (db.articles.filter
          (fun x => x.created_at < now - RETENTION_DAYS * minutesPerDay)).map
            (fun x => x.id) := List.mem_map_of_mem _ haold
      have := hmem'.2
      simp only [Bool.not_eq_true'] at this
      have hcont : ((db.articles.filter
          (fun x => x.created_at < now - RETENTION_DAYS * minutesPerDay)).map
            (fun x => x.id)).contains a.id = true := List.elem_iff.mpr hid
      rw [this] at hcont
      exact absurd hcont (by decide)
    · intro n hn
      have hn' := List.mem_filter.mp hn
      obtain ⟨a, hamem, haid⟩ := hint n hn'.1
      refine ⟨a, List.mem_filter.mpr ⟨hamem, ?_⟩, haid⟩
      have := hn'.2
      simp only [Bool.not_eq_true'] at this ⊢
      rw [haid]
      exact this

/-- A notification row's id determines the row when the table's ids are
distinct: membership of an id in the pending ids of a user is exactly the
pending predicate on the row itself. -/
theorem mem_pending_ids_iff (db : DB) (uid : Nat)
    (hnd : (db.notifications.map (fun n => n.id)).Nodup)
    {n : Notification} (hn : n ∈ db.notifications) :
    n.id ∈ (get_pending_notifications_for_user db uid).map (fun m => m.id) ↔
    (n.user_id = uid ∧ n.sent_at = none) := by
  constructor
  · intro h
    obtain ⟨m, hm, hmid⟩ := List.mem_map.mp h
    have hm' := List.mem_filter.mp hm
    have hmn : m = n := List.inj_on_of_nodup_map hnd hm'.1 hn hmid
    rw [← hmn]
    simpa using hm'.2
  · intro h
    refine List.mem_map.mpr ⟨n, List.mem_filter.mpr ⟨hn, ?_⟩, rfl⟩
    simp [h.1, h.2]

/-- C3 counterexample: a STANDARD recipient with 11 pending records; the
outbound carousel bundles only the first 10 (create_batch_flex_message's
articles[:10]), so notification id 10 is excluded from the bundle, yet a
successful call marks all 11 sent — including the excluded one. -/
theorem C3_counterexample :
    (10 ∉ bundled_ids ((get_pending_notifications_for_user
        ⟨(List.range 11).map (fun i => ⟨i, "A", "t", "a", "c", "u", 0⟩),
         (List.range 11).map (fun i => ⟨i, 0, i, none⟩), 11, 11⟩ 0).map
        (fun n => n.id))) ∧
    ((send_hourly_notifications [⟨0, "U", UserTier.STANDARD, true⟩]
        (fun _ => true)
        ⟨(List.range 11).map (fun i => ⟨i, "A", "t", "a", "c", "u", 0⟩),
         (List.range 11).map (fun i => ⟨i, 0, i, none⟩), 11, 11⟩
        99).db.notifications.filter (fun n => n.id == 10)).map
      (fun n => n.sent_at) = [some 99] := by
  exact ⟨by decide, by decide⟩

/-- C3 amended: an active BATCHED recipient with pending records gets
exactly one outbound transport call carrying all pending records (the
message itself is capped at the first 10); on failure every record stays
pending; on success ALL pending records are marked sent, including any
that the 10-bubble cap truncated out of the message. -/
theorem C3_amended (u : User) (db : DB) (now : Nat) (ok : Bool)
    (ht : u.tier = UserTier.STANDARD) (ha : u.is_active = true)
    (hnd : (db.notifications.map (fun n => n.id)).Nodup)
    (hp : get_pending_notifications_for_user db u.id ≠ []) :
    (send_hourly_notifications [u] (fun _ => ok) db now).calls
      = [(u.line_user_id,
          (get_pending_notifications_for_user db u.id).map (fun n => n.id))] ∧
    (ok = false → (send_hourly_notifications [u] (fun _ => ok) db now).db = db) ∧
    (ok = true →
      (send_hourly_notifications [u] (fun _ => ok) db now).db.notifications
        = db.notifications.map (fun n =>
            if n.user_id = u.id ∧ n.sent_at = none
            then { n with sent_at := some now } else n)) := by
  have hpe : (get_pending_notifications_for_user db u.id).isEmpty = false := by
    rw [Bool.eq_false_iff]
    intro h
    exact hp (List.isEmpty_iff.mp h)
  have e : send_hourly_notifications [u] (fun _ => ok) db now
      = if ok
        then ⟨mark_notifications_sent db
            ((get_pending_notifications_for_user db u.id).map (fun n => n.id))
            now,
          [(u.line_user_id,
            (get_pending_notifications_for_user db u.id).map (fun n => n.id))]⟩
        else ⟨db,
          [(u.line_user_id,
            (get_pending_notifications_for_user db u.id).map (fun n => n.id))]⟩ := by
    simp only [send_hourly_notifications, get_active_users_by_tier,
      List.filter_cons, List.filter_nil, ht, ha, beq_self_eq_true,
      Bool.and_self, if_pos, List.foldl_cons, List.foldl_nil, hpe,
      Bool.false_eq_true, if_false, List.nil_append]
  cases ok with
  | false =>
    rw [e]
    exact ⟨by simp, fun _ => by simp, fun h => by simp at h⟩
  | true =>
    rw [e]
    refine ⟨by simp, fun h => by simp at h, fun _ => ?_⟩
    rw [if_pos rfl]
    show (mark_notifications_sent db
        ((get_pending_notifications_for_user db u.id).map (fun n => n.id))
        now).notifications
      = db.notifications.map (fun n =>
          if n.user_id = u.id ∧ n.sent_at = none
          then { n with sent_at := some now } else n)
    rw [mark_notifications_sent]
    refine List.map_congr_left (fun n hn => ?_)
    by_cases hP : n.user_id = u.id ∧ n.sent_at = none
    · rw [if_pos ((mem_pending_ids_iff db u.id hnd hn).mpr hP), if_pos hP]
    · rw [if_neg (fun hmem => hP ((mem_pending_ids_iff db u.id hnd hn).mp hmem)),
        if_neg hP]

theorem C3_amended_witness :
    ((⟨0, "U", UserTier.STANDARD, true⟩ : User).tier = UserTier.STANDARD ∧
      ((⟨[], [⟨0, 0, 0, none⟩], 0, 1⟩ : DB).notifications.map
        (fun n => n.id)).Nodup ∧
      get_pending_notifications_for_user ⟨[], [⟨0, 0, 0, none⟩], 0, 1⟩ 0 ≠ []) ∧
    (send_hourly_notifications [⟨0, "U", UserTier.STANDARD, true⟩]
        (fun _ => true) ⟨[], [⟨0, 0, 0, none⟩], 0, 1⟩ 7).calls
      = [("U", (get_pending_notifications_for_user
          ⟨[], [⟨0, 0, 0, none⟩], 0, 1⟩ 0).map (fun n => n.id))] ∧
    (send_hourly_notifications [⟨0, "U", UserTier.STANDARD, true⟩]
        (fun _ => true) ⟨[], [⟨0, 0, 0, none⟩], 0, 1⟩ 7).db.notifications
      = (⟨[], [⟨0, 0, 0, none⟩], 0, 1⟩ : DB).notifications.map (fun n =>
          if n.user_id = 0 ∧ n.sent_at = none
          then { n with sent_at := some 7 } else n) :=
  have h := C3_amended ⟨0, "U", UserTier.STANDARD, true⟩
    ⟨[], [⟨0, 0, 0, none⟩], 0, 1⟩ 7 true rfl rfl (by decide) (by decide)
  ⟨⟨rfl, by decide, by decide⟩, h.1, h.2.2 rfl⟩

/-- C7 counterexample: dailyLimit = 1, empty ledger, two matching items by
two distinct authors in one batch, on the default (delayed) path: BOTH
are queued — the ledger is only written when the delayed thread fires, so
the second article still observes can_send_today = true and is not
dropped. -/
theorem C7_counterexample :
    can_send_today 1 ([] : List SentMail) 0 = true ∧
    process_articles_batch 1 ["loan"] (fun _ => some ("t", "c")) true
        (fun _ => true) 0 10 false
        [⟨"A1", "loan x", "alice", "c1"⟩, ⟨"A2", "loan y", "bob", "c2"⟩]
        ⟨[], []⟩ ⟨0, 0, 0⟩
      = (⟨2, 0, 0⟩, ⟨[], [⟨"alice", "A1"⟩, ⟨"bob", "A2"⟩]⟩) := by
  exact ⟨by decide, by decide⟩

/-- C7 amended: with dailyLimit = 1, an empty ledger, immediate mode, a
transport that succeeds for the first author, and the recorded send's UTC
date matching the checked local date, exactly the first matching article
is sent and recorded; the batch loop then observes can_send_today = false
and stops before the second article, leaving no ledger record for it.  (On
the default delayed path both are queued — see the counterexample.) -/
theorem C7_amended (kw : List String) (a1 a2 : MailArticle)
    (gen : MailArticle → Option (String × String)) (sendOk : String → Bool)
    (now : Nat) (mt mc : String)
    (hk1 : check_article_keywords kw a1 = true)
    (hk2 : check_article_keywords kw a2 = true)
    (hid : a1.article_id ≠ "") (hau : a1.author ≠ "") (hti : a1.title ≠ "")
    (hg : gen a1 = some (mt, mc)) (hmt : mt ≠ "") (hmc : mc ≠ "")
    (hs : sendOk a1.author = true) :
    process_articles_batch 1 kw gen true sendOk (utcDateOf now) now true
        [a1, a2] ⟨[], []⟩ ⟨0, 0, 0⟩
      = (⟨1, 0, 0⟩, ⟨[⟨a1.author, a1.article_id, now, true⟩], []⟩) ∧
    can_send_today 1 [⟨a1.author, a1.article_id, now, true⟩] (utcDateOf now)
      = false := by
  have hfull : can_send_today 1 [⟨a1.author, a1.article_id, now, true⟩]
      (utcDateOf now) = false := by
    simp [can_send_today, get_today_count]
  refine ⟨?_, hfull⟩
  rw [process_articles_batch]
  rw [if_neg (by simp [hk1])]
  rw [if_neg (by simp [can_send_today, get_today_count])]
  have hstep : process_article 1 gen true sendOk (utcDateOf now) now ⟨[], []⟩
      a1 true = (true, ⟨[⟨a1.author, a1.article_id, now, true⟩], []⟩) := by
    rw [process_article]
    rw [if_neg (by simp [hid, hau, hti])]
    rw [if_neg (by simp [has_processed_article])]
    rw [if_neg (by simp [has_sent_to])]
    rw [if_neg (by simp [can_send_today, get_today_count])]
    rw [hg]
    simp only [if_neg (by simp [hmt, hmc] :
      ¬ ((mt, mc).1 = "" ∨ (mt, mc).2 = ""))]
    simp [send_mail, record_sent, hs]
  rw [hstep]
  simp only [if_pos trivial]
  rw [process_articles_batch]
  rw [if_neg (by simp [hk2])]
  rw [if_pos (by simp [hfull])]

theorem C7_amended_witness :
    (check_article_keywords ["x"] ⟨"A1", "x t", "alice", "c"⟩ = true ∧
      check_article_keywords ["x"] ⟨"A2", "x u", "bob", "c"⟩ = true ∧
      (fun _ : MailArticle => some ("m", "b")) ⟨"A1", "x t", "alice", "c"⟩
        = some ("m", "b")) ∧
    process_articles_batch 1 ["x"] (fun _ => some ("m", "b")) true
        (fun _ => true) (utcDateOf 3) 3 true
        [⟨"A1", "x t", "alice", "c"⟩, ⟨"A2", "x u", "bob", "c"⟩]
        ⟨[], []⟩ ⟨0, 0, 0⟩
      = (⟨1, 0, 0⟩, ⟨[⟨"alice", "A1", 3, true⟩], []⟩) ∧
    can_send_today 1 [⟨"alice", "A1", 3, true⟩] (utcDateOf 3) = false :=
  have h := C7_amended ["x"] ⟨"A1", "x t", "alice", "c"⟩
    ⟨"A2", "x u", "bob", "c"⟩ (fun _ => some ("m", "b")) (fun _ => true) 3
    "m" "b" (by decide) (by decide) (by decide) (by decide) (by decide) rfl
    (by decide) (by decide) rfl
  ⟨⟨by decide, by decide, rfl⟩, h.1, h.2⟩

theorem C9_retention_purge_witness :
    integrity (⟨[⟨0, "A", "t", "a", "c", "u", 0⟩], [⟨0, 1, 0, none⟩], 1, 1⟩ : DB) ∧
    ((delete_old_articles ⟨[⟨0, "A", "t", "a", "c", "u", 0⟩],
          [⟨0, 1, 0, none⟩], 1, 1⟩ (RETENTION_DAYS * minutesPerDay + 1)).1
        + (delete_old_articles ⟨[⟨0, "A", "t", "a", "c", "u", 0⟩],
          [⟨0, 1, 0, none⟩], 1, 1⟩ (RETENTION_DAYS * minutesPerDay + 1)).2.articles.length
      = 1) ∧
    integrity (delete_old_articles ⟨[⟨0, "A", "t", "a", "c", "u", 0⟩],
        [⟨0, 1, 0, none⟩], 1, 1⟩ (RETENTION_DAYS * minutesPerDay + 1)).2 :=
  have h := C9_retention_purge ⟨[⟨0, "A", "t", "a", "c", "u", 0⟩],
    [⟨0, 1, 0, none⟩], 1, 1⟩ (RETENTION_DAYS * minutesPerDay + 1)
    (by intro n hn; exact ⟨⟨0, "A", "t", "a", "c", "u", 0⟩, by simp,
      by simp at hn; simp [hn]⟩)
  ⟨by intro n hn; exact ⟨⟨0, "A", "t", "a", "c", "u", 0⟩, by simp,
      by simp at hn; simp [hn]⟩, h.1, h.2.2⟩

end PttLoan
